import Mathlib

/-!
Verification of the inference-adapter layer of the gen-ai-workshop repository.

The Python sources are shallowly embedded: each adapter operation becomes a
Lean function over explicit data, the remote Bedrock endpoint becomes an
oracle parameter (a function from the request payload the adapter builds to
an endpoint outcome), and Python control flow becomes pattern matching.

Conventions of the embedding:
* `PyResult α` is the outcome of running a Python function: either a normal
  return (`returns`) or an uncaught exception propagating to the caller
  (`raises`).  A `try/except` block that swallows an exception turns a
  `raises` of its body into a `returns`; `gen_text.py`'s
  `generate_conversation` re-raises, so its errors stay `raises`.
* `EndpointOutcome ρ` is what a `bedrock_runtime.converse` / `invoke_model`
  call does: succeed with a parsed response body `ρ`, raise
  `botocore.exceptions.ClientError`, or raise any other exception.
* Each operation also returns the list of requests it sent to the endpoint,
  so that "fails before any network call is attempted" is the statement
  that this list is empty.
* JSON response bodies become structures whose fields are `Option`-valued
  where the Python code reads them with `.get` (absent key ⇒ `none`);
  Python's `dict.get(k, default)` becomes `Option.getD`.
* Floats that are only passed through (temperature, cfgScale,
  similarityStrength) are modelled as `Rat`; no float arithmetic occurs in
  the source.
* Bytes are `Fin 256`; Python `str` is `String`, except the base64 text,
  which is kept as `List Char` (the character list of the string).
-/

/-- Outcome of running a Python function: normal return or uncaught exception. -/
inductive PyResult (α : Type) where
  | returns (val : α)
  | raises (msg : String)
  deriving Repr, DecidableEq

/-- Outcome of one call to the remote Bedrock endpoint, as seen by the caller:
a parsed response body, a `ClientError`, or any other exception. -/
inductive EndpointOutcome (ρ : Type) where
  | success (resp : ρ)
  | clientError (msg : String)
  | otherError (msg : String)
  deriving Repr, DecidableEq

/-! ## Text adapter: `src/text_examples/gen_text.py` -/

/-- `DEFAULT_TEMPERATURE = 0.5`. -/
def DEFAULT_TEMPERATURE : Rat := 1 / 2

/-- The fixed allow-list `model_ids` of `gen_text.py`. -/
def model_ids : List String :=
  [ "us.anthropic.claude-3-5-sonnet-20241022-v2:0"
  , "us.anthropic.claude-3-5-haiku-20241022-v1:0"
  , "meta.llama3-1-70b-instruct-v1:0"
  , "meta.llama3-1-405b-instruct-v1:0"
  , "meta.llama3-1-8b-instruct-v1:0"
  , "mistral.mistral-large-2402-v1:0"
  , "us.amazon.nova-pro-v1:0"
  , "us.amazon.nova-lite-v1:0"
  , "us.amazon.nova-micro-v1:0" ]

/-- `validate_model_id`: raises `ValueError` when the id is not in `model_ids`. -/
def validate_model_id (model_id : String) : PyResult Unit :=
  if model_id ∈ model_ids then .returns ()
  else .raises ("Invalid model ID: " ++ model_id)

/-- One `{"text": ...}` system prompt. -/
structure SystemPrompt where
  text : String
  deriving Repr, DecidableEq

/-- One `{"text": ...}` content part of a user message. -/
structure ContentText where
  text : String
  deriving Repr, DecidableEq

/-- One `{"role": ..., "content": [...]}` message. -/
structure ConvMessage where
  role : String
  content : List ContentText
  deriving Repr, DecidableEq

/-- The payload `generate_conversation` hands to `bedrock_runtime.converse`. -/
structure ConvRequest where
  modelId : String
  messages : List ConvMessage
  system : List SystemPrompt
  temperature : Rat
  deriving Repr, DecidableEq

/-- A `{"text": ...}` part of the response content; `text` read with `.get`. -/
structure ConvTextPart where
  text : Option String
  deriving Repr, DecidableEq

/-- The `"message"` object of the converse response. -/
structure ConvRespMessage where
  content : Option (List ConvTextPart)
  deriving Repr, DecidableEq

/-- The `"output"` object of the converse response. -/
structure ConvOutput where
  message : Option ConvRespMessage
  deriving Repr, DecidableEq

/-- The `"usage"` counters; only logged by the source, never returned. -/
structure ConvUsage where
  inputTokens : Option Nat
  outputTokens : Option Nat
  totalTokens : Option Nat
  deriving Repr, DecidableEq

/-- The parsed response of `bedrock_runtime.converse`. -/
structure ConverseResponse where
  output : Option ConvOutput
  usage : Option ConvUsage
  stopReason : Option String
  deriving Repr, DecidableEq

/-- The extraction
`response.get("output", {}).get("message", {}).get("content", [{}])[0].get("text", "")`:
a missing key defaults (`{}` / `[{}]`), but an explicitly empty `content`
list makes `[0]` raise `IndexError`, which `generate_conversation` re-raises. -/
def extract_conv_text (resp : ConverseResponse) : PyResult String :=
  match ((resp.output.getD ⟨none⟩).message.getD ⟨none⟩).content.getD [⟨none⟩] with
  | [] => .raises "IndexError: list index out of range"
  | p :: _ => .returns (p.text.getD "")

/-- `generate_conversation`: builds the converse payload with the fixed
temperature, invokes the endpoint, extracts the first text segment.  Its
`except Exception` clause logs and then re-raises, so every endpoint failure
propagates (`raises`).  It performs no model-id validation of its own. -/
def generate_conversation (endpoint : ConvRequest → EndpointOutcome ConverseResponse)
    (model_id : String) (system_prompts : List SystemPrompt)
    (messages : List ConvMessage) : PyResult String × List ConvRequest :=
  let req : ConvRequest := ⟨model_id, messages, system_prompts, DEFAULT_TEMPERATURE⟩
  match endpoint req with
  | .success resp => (extract_conv_text resp, [req])
  | .clientError m => (.raises m, [req])
  | .otherError m => (.raises m, [req])

/-- `summarize_text`: empty text short-circuits to `""`; otherwise validates
the fixed model id and delegates to `generate_conversation`. -/
def summarize_text (endpoint : ConvRequest → EndpointOutcome ConverseResponse)
    (text : String) : PyResult String × List ConvRequest :=
  if text = "" then (.returns "", [])
  else
    match validate_model_id "us.amazon.nova-pro-v1:0" with
    | .raises m => (.raises m, [])
    | .returns _ =>
      generate_conversation endpoint "us.amazon.nova-pro-v1:0"
        [⟨"You are an app that creates summaries of text in 50 words or less."⟩]
        [⟨"user", [⟨"Summarize the following text: " ++ text ++ "."⟩]⟩]

/-- `sentiment_analysis`: empty text short-circuits to `"{}"`. -/
def sentiment_analysis (endpoint : ConvRequest → EndpointOutcome ConverseResponse)
    (text : String) : PyResult String × List ConvRequest :=
  if text = "" then (.returns "{}", [])
  else
    match validate_model_id "us.anthropic.claude-3-5-sonnet-20241022-v2:0" with
    | .raises m => (.raises m, [])
    | .returns _ =>
      generate_conversation endpoint "us.anthropic.claude-3-5-sonnet-20241022-v2:0"
        [⟨"You are a bot that takes text and returns a JSON object of sentiment analysis."⟩]
        [⟨"user", [⟨text⟩]⟩]

/-- `perform_qa`: an empty question or empty context short-circuits to the
fixed invalid-input message. -/
def perform_qa (endpoint : ConvRequest → EndpointOutcome ConverseResponse)
    (question : String) (text : String) : PyResult String × List ConvRequest :=
  if question = "" ∨ text = "" then
    (.returns "Invalid input: Question and text are required.", [])
  else
    match validate_model_id "mistral.mistral-large-2402-v1:0" with
    | .raises m => (.raises m, [])
    | .returns _ =>
      generate_conversation endpoint "mistral.mistral-large-2402-v1:0"
        [⟨"Given the following text, answer the question. If the answer is not in the text, 'say you do not know'. Here is the text: " ++ text⟩]
        [⟨"user", [⟨question⟩]⟩]

/-! ## Image generation adapter: `src/image_examples/image_gen_st.py` -/

/-- The `TEXT_IMAGE` payload `generate_image_nova` sends to `invoke_model`
(`taskType`, `textToImageParams` and `imageGenerationConfig` flattened into
one record). -/
structure NovaGenRequest where
  taskType : String
  text : String
  numberOfImages : Nat
  height : Nat
  width : Nat
  cfgScale : Rat
  seed : Nat
  deriving Repr, DecidableEq

/-- The parsed `invoke_model` response body; the code reads only
`response_body.get("images")`. -/
structure NovaResponse where
  images : Option (List String)
  deriving Repr, DecidableEq

/-- The payload built by `generate_image_nova` from its arguments. -/
def novaGenRequest (text : String) (height width : Nat) (cfg_scale : Rat)
    (seed : Nat) : NovaGenRequest :=
  ⟨"TEXT_IMAGE", text, 1, height, width, cfg_scale, seed⟩

/-- `generate_image_nova`: builds the `TEXT_IMAGE` payload, invokes the
endpoint, and returns `response_body.get("images")[0]`.  A missing `images`
key (`None[0]`, a `TypeError`), an empty list (`IndexError`), a
`ClientError` or any other exception are all caught and turn into `None`. -/
def generate_image_nova (endpoint : NovaGenRequest → EndpointOutcome NovaResponse)
    (text : String) (height width : Nat) (cfg_scale : Rat) (seed : Nat) :
    PyResult (Option String) × List NovaGenRequest :=
  let req := novaGenRequest text height width cfg_scale seed
  match endpoint req with
  | .success rb =>
    match rb.images with
    | some (img :: _) => (.returns (some img), [req])
    | some [] => (.returns none, [req])
    | none => (.returns none, [req])
  | .clientError _ => (.returns none, [req])
  | .otherError _ => (.returns none, [req])

/-! ## Image variation adapter: `src/image_examples/image_to_image_st.py` -/

/-- The `IMAGE_VARIATION` payload of `nova_update_image` (`taskType`,
`imageVariationParams` and `imageGenerationConfig` flattened). -/
structure NovaVarRequest where
  taskType : String
  text : String
  images : List String
  similarityStrength : Rat
  numberOfImages : Nat
  height : Nat
  width : Nat
  cfgScale : Rat
  deriving Repr, DecidableEq

/-- The payload built by `nova_update_image`: the caller's prompt, reference
image and similarity strength, and a hard-coded generation config
(1 image, 512×512, cfgScale 8.0). -/
def novaVariationRequest (change_prompt init_image_b64 : String)
    (similarity_strength : Rat) : NovaVarRequest :=
  ⟨"IMAGE_VARIATION", change_prompt, [init_image_b64], similarity_strength,
    1, 512, 512, 8⟩

/-- `nova_update_image`: builds the `IMAGE_VARIATION` payload — with no local
check of `similarity_strength` — invokes the endpoint, and returns
`response_body.get("images")[0]`; its single `except Exception` turns every
failure (including `ClientError`) into `None`. -/
def nova_update_image (endpoint : NovaVarRequest → EndpointOutcome NovaResponse)
    (change_prompt init_image_b64 : String) (similarity_strength : Rat) :
    PyResult (Option String) × List NovaVarRequest :=
  let req := novaVariationRequest change_prompt init_image_b64 similarity_strength
  match endpoint req with
  | .success rb =>
    match rb.images with
    | some (img :: _) => (.returns (some img), [req])
    | some [] => (.returns none, [req])
    | none => (.returns none, [req])
  | .clientError _ => (.returns none, [req])
  | .otherError _ => (.returns none, [req])

/-! ## Image understanding adapter: `src/image_examples/image_understanding_st.py` -/

/-- The captioning payload of `call_claude_sonnet`: the fixed anthropic
version and token limit, one base64 image part and one fixed text part. -/
structure ClaudeRequest where
  anthropic_version : String
  max_tokens : Nat
  media_type : String
  image_data : String
  caption_text : String
  deriving Repr, DecidableEq

/-- A `{"type": "text", ...}` part of the Claude response content; `text`
is read with `.get("text", default)`. -/
structure ClaudeTextPart where
  text : Option String
  deriving Repr, DecidableEq

/-- The parsed Claude response body; the code reads only
`response_body.get("content")`. -/
structure ClaudeResponse where
  content : Option (List ClaudeTextPart)
  deriving Repr, DecidableEq

/-- The payload built by `call_claude_sonnet` for a base64 image string. -/
def claudeRequest (base64_string : String) : ClaudeRequest :=
  ⟨"bedrock-2023-05-31", 4096, "image/png", base64_string,
    "Provide a caption for this image"⟩

/-- `call_claude_sonnet`: invokes the endpoint and returns
`response_body.get("content")[0].get("text", "No description available")`.
The `"No description available"` default is only reached when the first
content part lacks a `"text"` key; an empty `content` list raises
`IndexError` and a missing `content` key raises `TypeError`, both caught by
the `except` clauses, which return `"Error generating description"`. -/
def call_claude_sonnet (endpoint : ClaudeRequest → EndpointOutcome ClaudeResponse)
    (base64_string : String) : PyResult String × List ClaudeRequest :=
  let req := claudeRequest base64_string
  match endpoint req with
  | .success rb =>
    match rb.content with
    | some (p :: _) => (.returns (p.text.getD "No description available"), [req])
    | some [] => (.returns "Error generating description", [req])
    | none => (.returns "Error generating description", [req])
  | .clientError _ => (.returns "Error generating description", [req])
  | .otherError _ => (.returns "Error generating description", [req])

/-- `SUPPORTED_FORMATS = ["PNG", "JPEG", "JPG"]`. -/
def SUPPORTED_FORMATS : List String := ["PNG", "JPEG", "JPG"]

/-- `MAX_IMAGE_SIZE = 5 * 1024 * 1024`. -/
def MAX_IMAGE_SIZE : Nat := 5 * 1024 * 1024

/-- Python's `str.upper()` on the characters of a string (the format tags
compared here are ASCII). -/
def pyUpper (s : String) : String := ⟨s.data.map Char.toUpper⟩

/-- What `PIL.Image.open` yields of an uploaded file, as far as
`validate_image` reads it: the `format` attribute, which PIL may leave
`None` (then `.upper()` raises `AttributeError`, caught below). -/
structure PILOpened where
  format : Option String
  deriving Repr, DecidableEq

/-- `validate_image`: rejects (returns `None`) when the byte length exceeds
`MAX_IMAGE_SIZE`, when `PIL.Image.open` fails (modelled by the external
oracle `pilOpen` returning `none`), when the opened image has no format, or
when the upper-cased format is not in `SUPPORTED_FORMATS`; otherwise
returns the opened image.  A pure local check: no endpoint is involved. -/
def validate_image (pilOpen : List (Fin 256) → Option PILOpened)
    (fileBytes : List (Fin 256)) : Option PILOpened :=
  if fileBytes.length > MAX_IMAGE_SIZE then none
  else
    match pilOpen fileBytes with
    | none => none
    | some img =>
      match img.format with
      | none => none
      | some fmt => if pyUpper fmt ∈ SUPPORTED_FORMATS then some img else none

/-! ## Base64 and the encoding helpers

`base64.b64encode` / `b64decode` (RFC 4648 with `=` padding), modelled on
byte lists.  Bit shifts become division and remainder by powers of two. -/

/-- The 64-character base64 alphabet. -/
def b64Alphabet : List Char :=
  [ 'A', 'B', 'C', 'D', 'E', 'F', 'G', 'H', 'I', 'J', 'K', 'L', 'M'
  , 'N', 'O', 'P', 'Q', 'R', 'S', 'T', 'U', 'V', 'W', 'X', 'Y', 'Z'
  , 'a', 'b', 'c', 'd', 'e', 'f', 'g', 'h', 'i', 'j', 'k', 'l', 'm'
  , 'n', 'o', 'p', 'q', 'r', 's', 't', 'u', 'v', 'w', 'x', 'y', 'z'
  , '0', '1', '2', '3', '4', '5', '6', '7', '8', '9', '+', '/' ]

/-- The character for a sextet value. -/
def b64Char (i : Nat) : Char := b64Alphabet.getD i 'A'

/-- The sextet value of an alphabet character (`none` off the alphabet). -/
def b64Index (c : Char) : Option (Fin 64) :=
  match b64Alphabet.findIdx? (fun d => d == c) with
  | some i => if h : i < 64 then some ⟨i, h⟩ else none
  | none => none

/-- `base64.b64encode` on a byte list: three bytes become four alphabet
characters; a trailing one or two bytes are padded with `=`. -/
def b64encode : List (Fin 256) → List Char
  | [] => []
  | [b1] =>
    [b64Char (b1.val / 4), b64Char (b1.val % 4 * 16), '=', '=']
  | [b1, b2] =>
    [b64Char (b1.val / 4), b64Char (b1.val % 4 * 16 + b2.val / 16),
     b64Char (b2.val % 16 * 4), '=']
  | b1 :: b2 :: b3 :: rest =>
    b64Char (b1.val / 4) :: b64Char (b1.val % 4 * 16 + b2.val / 16) ::
    b64Char (b2.val % 16 * 4 + b3.val / 64) :: b64Char (b3.val % 64) ::
    b64encode rest

/-- `base64.b64decode` on well-formed input: quads of alphabet characters,
with `=` padding allowed in the final quad only; anything else (as a
length not a multiple of four) is an error (`none`).  Python does not check
that the unused padding bits are zero, and neither does this. -/
def b64decode : List Char → Option (List (Fin 256))
  | [] => some []
  | c1 :: c2 :: c3 :: c4 :: rest =>
    match b64Index c1, b64Index c2 with
    | some i1, some i2 =>
      if c3 = '=' then
        if c4 = '=' ∧ rest = [] then
          some [⟨i1.val * 4 + i2.val / 16, by omega⟩]
        else none
      else
        match b64Index c3 with
        | some i3 =>
          if c4 = '=' then
            if rest = [] then
              some [⟨i1.val * 4 + i2.val / 16, by omega⟩,
                    ⟨i2.val % 16 * 16 + i3.val / 4, by omega⟩]
            else none
          else
            match b64Index c4 with
            | some i4 =>
              match b64decode rest with
              | some bs =>
                some (⟨i1.val * 4 + i2.val / 16, by omega⟩ ::
                      ⟨i2.val % 16 * 16 + i3.val / 4, by omega⟩ ::
                      ⟨i3.val % 4 * 64 + i4.val, by omega⟩ :: bs)
              | none => none
            | none => none
        | none => none
    | _, _ => none
  | _ => none

/-- A PIL image, abstracted to what the helpers observe of it: the byte
buffer `img.save(buffer, format, ...)` writes for each format string (PIL
itself is an external library; its serialization is opaque here). -/
structure PILImage where
  save : String → List (Fin 256)

/-- The argument of `image_to_base64`: a file path or a PIL image. -/
inductive ImgArg where
  | path (p : String)
  | pil (img : PILImage)

/-- `image_to_base64` of `image_to_image_st.py`: a file path is read and its
bytes base64-encoded (`FileNotFoundError` when absent, modelled through the
file-system oracle `fs`); a PIL image is saved as PNG and the buffer
base64-encoded.  The base64 text is the returned string's character list. -/
def image_to_base64 (fs : String → Option (List (Fin 256))) :
    ImgArg → PyResult (List Char)
  | .path p =>
    match fs p with
    | some bytes => .returns (b64encode bytes)
    | none => .raises ("File " ++ p ++ " does not exist")
  | .pil img => .returns (b64encode (img.save "PNG"))

/-- `base64_to_pil` of `image_to_image_st.py`: decodes the base64 string and
hands the bytes to `PIL.Image.open` (the external oracle `pilOpen`); any
failure is caught and becomes `None`. -/
def base64_to_pil (pilOpen : List (Fin 256) → Option PILImage)
    (base64_string : List Char) : Option PILImage :=
  match b64decode base64_string with
  | some imgdata => pilOpen imgdata
  | none => none

/-- `pil_to_base64` of `image_understanding_st.py`: saves the image in the
given format (JPEG/JPG with quality 85, folded into the image's abstract
`save`) and base64-encodes the buffer. -/
def pil_to_base64 (image : PILImage) (format : String) : List Char :=
  b64encode (image.save format)

/-! ## Stub endpoints used by concrete scenarios -/

/-- A converse stub whose reply is one text segment `"stub-reply"`. -/
def convStubOk : ConvRequest → EndpointOutcome ConverseResponse :=
  fun _ => .success ⟨some ⟨some ⟨some [⟨some "stub-reply"⟩]⟩⟩, none, none⟩

/-- A converse stub that raises on every request. -/
def convStubBoom : ConvRequest → EndpointOutcome ConverseResponse :=
  fun _ => .otherError "boom"

/-- A captioning stub answering `{"content": []}`. -/
def claudeStubEmptyContent : ClaudeRequest → EndpointOutcome ClaudeResponse :=
  fun _ => .success ⟨some []⟩

/-- A captioning stub whose first content part has no `"text"` key. -/
def claudeStubNoText : ClaudeRequest → EndpointOutcome ClaudeResponse :=
  fun _ => .success ⟨some [⟨none⟩]⟩

/-- An image-variation stub answering one fixed base64 image. -/
def novaVarStub : NovaVarRequest → EndpointOutcome NovaResponse :=
  fun _ => .success ⟨some ["stub-img"]⟩

/-- A text-to-image stub answering one fixed base64 PNG. -/
def novaGenStubRedCube : NovaGenRequest → EndpointOutcome NovaResponse :=
  fun _ => .success ⟨some ["iVBORw0KGgoAAAANSUhEUg=="]⟩

/-! ## General lemmas -/

/-- Each base64 character decodes back to its sextet. -/
theorem b64Index_b64Char : ∀ i : Fin 64, b64Index (b64Char i.val) = some i := by
  decide

/-- No alphabet character is the padding character. -/
theorem b64Char_ne_pad : ∀ i : Fin 64, b64Char i.val ≠ '=' := by
  decide

/-- Base64 decoding inverts encoding, byte for byte. -/
theorem b64decode_b64encode (bs : List (Fin 256)) :
    b64decode (b64encode bs) = some bs := by
  induction bs using b64encode.induct with
  | case1 => rfl
  | case2 b1 =>
    have h1 := b64Index_b64Char ⟨b1.val / 4, by omega⟩
    have h2 := b64Index_b64Char ⟨b1.val % 4 * 16, by omega⟩
    simp [b64encode, b64decode, h1, h2, Fin.ext_iff]
    omega
  | case3 b1 b2 =>
    have h1 := b64Index_b64Char ⟨b1.val / 4, by omega⟩
    have h2 := b64Index_b64Char ⟨b1.val % 4 * 16 + b2.val / 16, by omega⟩
    have h3 := b64Index_b64Char ⟨b2.val % 16 * 4, by omega⟩
    have n3 := b64Char_ne_pad ⟨b2.val % 16 * 4, by omega⟩
    simp [b64encode, b64decode, h1, h2, h3, n3, Fin.ext_iff]
    omega
  | case4 b1 b2 b3 rest ih =>
    have h1 := b64Index_b64Char ⟨b1.val / 4, by omega⟩
    have h2 := b64Index_b64Char ⟨b1.val % 4 * 16 + b2.val / 16, by omega⟩
    have h3 := b64Index_b64Char ⟨b2.val % 16 * 4 + b3.val / 64, by omega⟩
    have h4 := b64Index_b64Char ⟨b3.val % 64, by omega⟩
    have n3 := b64Char_ne_pad ⟨b2.val % 16 * 4 + b3.val / 64, by omega⟩
    have n4 := b64Char_ne_pad ⟨b3.val % 64, by omega⟩
    simp [b64encode, b64decode, h1, h2, h3, h4, n3, n4, ih, Fin.ext_iff]
    omega

/-- `nova_update_image` invokes the endpoint exactly once, on the payload
`novaVariationRequest` builds, for every input. -/
theorem nova_update_image_calls
    (endpoint : NovaVarRequest → EndpointOutcome NovaResponse)
    (change_prompt init_b64 : String) (ss : Rat) :
    (nova_update_image endpoint change_prompt init_b64 ss).2
      = [novaVariationRequest change_prompt init_b64 ss] := by
  rcases hE : endpoint (novaVariationRequest change_prompt init_b64 ss)
      with rb | m | m
  · rcases hI : rb.images with _ | ⟨_ | ⟨i, l⟩⟩ <;>
      simp [nova_update_image, hE, hI]
  · simp [nova_update_image, hE]
  · simp [nova_update_image, hE]

/-! ## Claim theorems -/

/-- C1 (amended): the image adapter operations — `generate_image_nova`,
`nova_update_image` and `call_claude_sonnet` — terminate with a normal
return value for every input and every endpoint outcome (success,
`ClientError`, or any other exception); no exception propagates out of
them.  (The text operations do not share this property: see the
counterexample, `generate_conversation` re-raises.) -/
theorem image_adapters_never_raise
    (epGen : NovaGenRequest → EndpointOutcome NovaResponse)
    (epVar : NovaVarRequest → EndpointOutcome NovaResponse)
    (epCap : ClaudeRequest → EndpointOutcome ClaudeResponse)
    (text : String) (ht wd : Nat) (cfg : Rat) (seed : Nat)
    (change_prompt init_b64 : String) (ss : Rat) (cap_b64 : String) :
    (∃ v, (generate_image_nova epGen text ht wd cfg seed).1 = .returns v) ∧
    (∃ v, (nova_update_image epVar change_prompt init_b64 ss).1 = .returns v) ∧
    (∃ v, (call_claude_sonnet epCap cap_b64).1 = .returns v) := by
  refine ⟨?_, ?_, ?_⟩
  · rcases hE : epGen (novaGenRequest text ht wd cfg seed) with rb | m | m
    · rcases hI : rb.images with _ | ⟨_ | ⟨i, l⟩⟩
      · exact ⟨none, by simp [generate_image_nova, hE, hI]⟩
      · exact ⟨none, by simp [generate_image_nova, hE, hI]⟩
      · exact ⟨some i, by simp [generate_image_nova, hE, hI]⟩
    · exact ⟨none, by simp [generate_image_nova, hE]⟩
    · exact ⟨none, by simp [generate_image_nova, hE]⟩
  · rcases hE : epVar (novaVariationRequest change_prompt init_b64 ss)
        with rb | m | m
    · rcases hI : rb.images with _ | ⟨_ | ⟨i, l⟩⟩
      · exact ⟨none, by simp [nova_update_image, hE, hI]⟩
      · exact ⟨none, by simp [nova_update_image, hE, hI]⟩
      · exact ⟨some i, by simp [nova_update_image, hE, hI]⟩
    · exact ⟨none, by simp [nova_update_image, hE]⟩
    · exact ⟨none, by simp [nova_update_image, hE]⟩
  · rcases hE : epCap (claudeRequest cap_b64) with rb | m | m
    · rcases hI : rb.content with _ | ⟨_ | ⟨p, l⟩⟩
      · exact ⟨"Error generating description", by simp [call_claude_sonnet, hE, hI]⟩
      · exact ⟨"Error generating description", by simp [call_claude_sonnet, hE, hI]⟩
      · exact ⟨p.text.getD "No description available",
          by simp [call_claude_sonnet, hE, hI]⟩
    · exact ⟨"Error generating description", by simp [call_claude_sonnet, hE]⟩
    · exact ⟨"Error generating description", by simp [call_claude_sonnet, hE]⟩

/-- C1 counterexample: `summarize_text` propagates an endpoint exception to
its caller — `generate_conversation`'s `except` clause re-raises — so the
claim's list of never-raising operations is wrong about the text
operations. -/
theorem summarize_text_propagates_endpoint_exception :
    (summarize_text convStubBoom "hello").1 = .raises "boom" := by
  rfl

/-- C2 (amended): `validate_model_id` fails with the invalid-model
`ValueError` for every identifier outside the allow-list `model_ids` — it
is a pure check, involving no endpoint — and the wrapper operations invoke
it on their fixed model ids before calling `generate_conversation`;
`generate_conversation` itself performs no allow-list check. -/
theorem validate_model_id_rejects_unknown (model_id : String)
    (hm : model_id ∉ model_ids) :
    validate_model_id model_id = .raises ("Invalid model ID: " ++ model_id) := by
  simp [validate_model_id, hm]

/-- C2 witness: the check rejects the concrete id `"not-a-model"`. -/
theorem validate_model_id_rejects_unknown_witness :
    validate_model_id "not-a-model"
      = .raises ("Invalid model ID: " ++ "not-a-model") :=
  validate_model_id_rejects_unknown "not-a-model" (by decide)

/-- C2 counterexample: `generate_conversation` itself, handed an identifier
outside `model_ids`, raises no invalid-model error and does reach the
endpoint: it sends exactly one converse request and returns the stub's
reply. -/
theorem generate_conversation_no_allowlist_check :
    "not-a-model-id" ∉ model_ids ∧
    (generate_conversation convStubOk "not-a-model-id" [] []).2
      = [⟨"not-a-model-id", [], [], DEFAULT_TEMPERATURE⟩] ∧
    (generate_conversation convStubOk "not-a-model-id" [] []).1
      = .returns "stub-reply" :=
  ⟨by decide, rfl, rfl⟩

/-- C3 (amended): `nova_update_image` performs no local validation of
`similarity_strength`: for every value, in range or not, it invokes the
endpoint exactly once with the `IMAGE_VARIATION` payload carrying that
value unchanged in `similarityStrength`.  The [0.2, 1.0] range is enforced
only by the UI slider, not by the adapter. -/
theorem nova_update_image_no_similarity_validation
    (endpoint : NovaVarRequest → EndpointOutcome NovaResponse)
    (change_prompt init_b64 : String) (ss : Rat) :
    (nova_update_image endpoint change_prompt init_b64 ss).2
      = [novaVariationRequest change_prompt init_b64 ss] ∧
    (novaVariationRequest change_prompt init_b64 ss).similarityStrength = ss :=
  ⟨nova_update_image_calls endpoint change_prompt init_b64 ss, rfl⟩

/-- C3 counterexample: with `similarity_strength = 1.5`, outside
[0.2, 1.0], `nova_update_image` raises no `ValidationError` before the
endpoint: the stub endpoint is invoked (the call trace is the one built
payload, with `similarityStrength = 3/2`) and its image is returned. -/
theorem nova_update_image_accepts_out_of_range_similarity :
    ¬ ((3 : Rat) / 2 ≤ 1) ∧
    (nova_update_image novaVarStub "make it blue" "refimg" (3 / 2)).2
      = [novaVariationRequest "make it blue" "refimg" (3 / 2)] ∧
    (nova_update_image novaVarStub "make it blue" "refimg" (3 / 2)).1
      = .returns (some "stub-img") :=
  ⟨by norm_num, rfl, rfl⟩

/-- C4 (amended): against a response body `{"content": []}`,
`call_claude_sonnet` does not raise but returns
`"Error generating description"`: the `[0]` on the empty list raises
`IndexError` inside the `try` block and the generic handler catches it.
The `"No description available"` default is returned only when `content`
is non-empty and its first element lacks a `"text"` key. -/
theorem call_claude_sonnet_empty_content_generic_error
    (ep1 ep2 : ClaudeRequest → EndpointOutcome ClaudeResponse)
    (b1 b2 : String) (rest : List ClaudeTextPart)
    (h1 : ep1 (claudeRequest b1) = .success ⟨some []⟩)
    (h2 : ep2 (claudeRequest b2) = .success ⟨some (⟨none⟩ :: rest)⟩) :
    (call_claude_sonnet ep1 b1).1 = .returns "Error generating description" ∧
    (call_claude_sonnet ep2 b2).1 = .returns "No description available" := by
  constructor
  · simp [call_claude_sonnet, h1]
  · simp [call_claude_sonnet, h2]

/-- C4 witness: the two response shapes at concrete stubs. -/
theorem call_claude_sonnet_empty_content_generic_error_witness :
    (call_claude_sonnet claudeStubEmptyContent "imgdata").1
      = .returns "Error generating description" ∧
    (call_claude_sonnet claudeStubNoText "imgdata").1
      = .returns "No description available" :=
  call_claude_sonnet_empty_content_generic_error
    claudeStubEmptyContent claudeStubNoText "imgdata" "imgdata" [] rfl rfl

/-- C4 counterexample: at the claim's own scenario — a stub returning
`{"content": []}` — the adapter's return value is
`"Error generating description"`, which is not the claimed
`"No description available"` default. -/
theorem call_claude_sonnet_empty_content_not_default_caption :
    (call_claude_sonnet claudeStubEmptyContent "img").1
      = .returns "Error generating description" ∧
    "Error generating description" ≠ "No description available" :=
  ⟨rfl, by decide⟩

/-- C5: the empty-input short-circuits: `summarize_text ""` returns `""`,
`sentiment_analysis ""` returns `"{}"`, and `perform_qa` with an empty
question or empty context returns the fixed invalid-input message — each
with an empty endpoint-call trace, so the remote endpoint is never
invoked. -/
theorem empty_input_short_circuit
    (endpoint : ConvRequest → EndpointOutcome ConverseResponse)
    (question context : String) :
    summarize_text endpoint "" = (.returns "", []) ∧
    sentiment_analysis endpoint "" = (.returns "{}", []) ∧
    (question = "" ∨ context = "" →
      perform_qa endpoint question context
        = (.returns "Invalid input: Question and text are required.", [])) := by
  refine ⟨rfl, rfl, fun h => ?_⟩
  unfold perform_qa
  rw [if_pos h]

/-- C5 witness: the short-circuits at a concrete stub endpoint and a
concrete non-empty context. -/
theorem empty_input_short_circuit_witness :
    summarize_text convStubOk "" = (.returns "", []) ∧
    sentiment_analysis convStubOk "" = (.returns "{}", []) ∧
    perform_qa convStubOk "" "some context"
      = (.returns "Invalid input: Question and text are required.", []) := by
  have h := empty_input_short_circuit convStubOk "" "some context"
  exact ⟨h.1, h.2.1, h.2.2 (Or.inl rfl)⟩

/-- C6: `validate_image` rejects (returns `None` for) every file whose byte
length exceeds `MAX_IMAGE_SIZE` (5 MiB), whatever `PIL.Image.open` would
say about it. -/
theorem validate_image_rejects_oversized
    (pilOpen : List (Fin 256) → Option PILOpened) (fileBytes : List (Fin 256))
    (hsize : fileBytes.length > MAX_IMAGE_SIZE) :
    validate_image pilOpen fileBytes = none := by
  simp [validate_image, hsize]

/-- C6 witness: a file of `MAX_IMAGE_SIZE + 1` bytes that opens as a valid
PNG is still rejected. -/
theorem validate_image_rejects_oversized_witness :
    validate_image (fun _ => some ⟨some "PNG"⟩)
      (List.replicate (MAX_IMAGE_SIZE + 1) 0) = none :=
  validate_image_rejects_oversized _ _ (by simp)

/-- C7: `validate_image` rejects every file whose opened image reports a
format outside `SUPPORTED_FORMATS` (after upper-casing), even when the
size is within the limit. -/
theorem validate_image_rejects_unsupported_format
    (pilOpen : List (Fin 256) → Option PILOpened) (fileBytes : List (Fin 256))
    (img : PILOpened) (fmt : String)
    (hsize : ¬ fileBytes.length > MAX_IMAGE_SIZE)
    (hopen : pilOpen fileBytes = some img)
    (hfmt : img.format = some fmt)
    (hbad : pyUpper fmt ∉ SUPPORTED_FORMATS) :
    validate_image pilOpen fileBytes = none := by
  simp [validate_image, hsize, hopen, hfmt, hbad]

/-- C7 witness: a zero-byte upload that opens as a GIF is rejected. -/
theorem validate_image_rejects_unsupported_format_witness :
    validate_image (fun _ => some ⟨some "GIF"⟩) [] = none :=
  validate_image_rejects_unsupported_format
    (fun _ => some ⟨some "GIF"⟩) [] ⟨some "GIF"⟩ "GIF"
    (by decide) rfl rfl (by decide)

/-- C8: the base64 helpers are a lossless round-trip.  Decoding the result
of encoding reproduces the original bytes exactly, for every byte
sequence; in particular the string built by `image_to_base64` from a PIL
image, and the one built by `pil_to_base64` in any format, decode back to
exactly the saved buffer bytes, and `base64_to_pil` hands
`PIL.Image.open` exactly the bytes `pil_to_base64` started from. -/
theorem base64_roundtrip_lossless :
    (∀ bs : List (Fin 256), b64decode (b64encode bs) = some bs) ∧
    (∀ (fs : String → Option (List (Fin 256))) (img : PILImage),
      image_to_base64 fs (.pil img) = .returns (b64encode (img.save "PNG")) ∧
      b64decode (b64encode (img.save "PNG")) = some (img.save "PNG")) ∧
    (∀ (img : PILImage) (fmt : String),
      b64decode (pil_to_base64 img fmt) = some (img.save fmt)) ∧
    (∀ (pilOpen : List (Fin 256) → Option PILImage) (img : PILImage),
      base64_to_pil pilOpen (pil_to_base64 img "PNG") = pilOpen (img.save "PNG")) := by
  refine ⟨b64decode_b64encode, ?_, ?_, ?_⟩
  · exact fun fs img => ⟨rfl, b64decode_b64encode _⟩
  · exact fun img fmt => b64decode_b64encode _
  · intro pilOpen img
    simp [base64_to_pil, pil_to_base64, b64decode_b64encode]

/-- C9: whenever the endpoint's response body to the `TEXT_IMAGE` payload
carries a non-empty `images` list of base64 strings, `generate_image_nova`
returns exactly its first element, unchanged. -/
theorem generate_image_nova_returns_first_image
    (endpoint : NovaGenRequest → EndpointOutcome NovaResponse)
    (text : String) (ht wd : Nat) (cfg : Rat) (seed : Nat)
    (img : String) (rest : List String)
    (hresp : endpoint (novaGenRequest text ht wd cfg seed)
      = .success ⟨some (img :: rest)⟩) :
    (generate_image_nova endpoint text ht wd cfg seed).1 = .returns (some img) := by
  simp [generate_image_nova, hresp]

/-- C9 witness: `generate_image("a red cube", 512, 512, 8.0, seed=0)`
against a stub returning one fixed base64 PNG returns that exact base64
string. -/
theorem generate_image_nova_returns_first_image_witness :
    (generate_image_nova novaGenStubRedCube "a red cube" 512 512 8 0).1
      = .returns (some "iVBORw0KGgoAAAANSUhEUg==") :=
  generate_image_nova_returns_first_image novaGenStubRedCube
    "a red cube" 512 512 8 0 "iVBORw0KGgoAAAANSUhEUg==" [] rfl

/-- C10: every `IMAGE_VARIATION` payload `nova_update_image` sends — and it
sends exactly one per call — fixes the generation config to one 512×512
image at cfgScale 8.0, whatever the caller's prompt, reference image or
similarity strength. -/
theorem nova_variation_config_fixed
    (endpoint : NovaVarRequest → EndpointOutcome NovaResponse)
    (change_prompt init_b64 : String) (ss : Rat) :
    (nova_update_image endpoint change_prompt init_b64 ss).2
      = [novaVariationRequest change_prompt init_b64 ss] ∧
    (novaVariationRequest change_prompt init_b64 ss).taskType = "IMAGE_VARIATION" ∧
    (novaVariationRequest change_prompt init_b64 ss).numberOfImages = 1 ∧
    (novaVariationRequest change_prompt init_b64 ss).height = 512 ∧
    (novaVariationRequest change_prompt init_b64 ss).width = 512 ∧
    (novaVariationRequest change_prompt init_b64 ss).cfgScale = 8 :=
  ⟨nova_update_image_calls endpoint change_prompt init_b64 ss,
    rfl, rfl, rfl, rfl, rfl⟩
